import Mathlib

/-!
Verification of the ripple-rest Python client (ripplerest/client.py and
ripplerest/entities.py) against its natural-language specification.

The development is a shallow embedding: Python dictionaries become
association lists over a JSON-like value type `JVal`, Python exceptions
become an explicit error type `PyErr` threaded through `Except`, and the
HTTP transport together with JSON serialization (external collaborators)
are modelled by passing the parsed response as a parameter (`HttpOutcome`).
Python floats are modelled as positive finite IEEE-754 doubles together
with CPython's shortest round-trip `str`/`repr` algorithm, which the
`Amount` entity relies on through `str(value)`.
-/

/-! ### Python floats (positive finite IEEE-754 doubles) -/

/-- A positive finite IEEE-754 double in normal range, with value
`m * 2 ^ e` where `2 ^ 52 ≤ m < 2 ^ 53`.  (Zero, negative, subnormal and
non-finite doubles are not needed by the code under verification.) -/
structure PyFloat where
  m : Nat
  e : Int
deriving DecidableEq

/-- Fuel-driven base-2 logarithm (`2 ^ result ≤ n`), kernel-reducible. -/
def log2Fuel : Nat → Nat → Nat
  | 0, _ => 0
  | fuel + 1, n => if 2 ≤ n then log2Fuel fuel (n / 2) + 1 else 0

/-- Base-2 logarithm of a natural number (0 for 0 and 1). -/
def natLog2 (n : Nat) : Nat := log2Fuel 4096 n

/-- Decides `2 ^ k ≤ n / d` for an exact positive rational `n / d`. -/
def pow2leRat (k : Int) (n d : Nat) : Bool :=
  if 0 ≤ k then 2 ^ k.toNat * d ≤ n else d ≤ 2 ^ (-k).toNat * n

/-- Decides `10 ^ k ≤ n / d` for an exact positive rational `n / d`. -/
def pow10leRat (k : Int) (n d : Nat) : Bool :=
  if 0 ≤ k then 10 ^ k.toNat * d ≤ n else d ≤ 10 ^ (-k).toNat * n

/-- Largest `k` with `2 ^ k ≤ n / d`, for positive `n`, `d`. -/
def floorLog2Rat (n d : Nat) : Int :=
  let g : Int := (natLog2 n : Int) - (natLog2 d : Int) - 1
  if pow2leRat (g + 2) n d then g + 2
  else if pow2leRat (g + 1) n d then g + 1
  else g

/-- Round `N / D` to the nearest integer, ties to even (IEEE rounding). -/
def rhe (N D : Nat) : Nat :=
  let q := N / D
  let r := N % D
  if 2 * r < D then q
  else if D < 2 * r then q + 1
  else if q % 2 = 0 then q else q + 1

/-- The pair `(n2, d2)` with `n2 / d2 = (n / d) / 2 ^ e` exactly. -/
def ratScaled (n d : Nat) (e : Int) : Nat × Nat :=
  if 0 ≤ e then (n, d * 2 ^ e.toNat) else (n * 2 ^ (-e).toNat, d)

/-- The IEEE-754 double nearest to the positive rational `n / d`
(round to nearest, ties to even). -/
def doubleOfRat (n d : Nat) : PyFloat :=
  let e := floorLog2Rat n d - 52
  let p := ratScaled n d e
  let m := rhe p.1 p.2
  if m = 2 ^ 53 then ⟨2 ^ 52, e + 1⟩ else ⟨m, e⟩

/-- The double nearest to the decimal `ds * 10 ^ k`; this is what the
Python parser produces for a positive float literal. -/
def doubleOfDec (ds : Nat) (k : Int) : PyFloat :=
  if 0 ≤ k then doubleOfRat (ds * 10 ^ k.toNat) 1 else doubleOfRat ds (10 ^ (-k).toNat)

/-- Exact value of a double as a fraction `(numerator, denominator)`. -/
def PyFloat.rat (f : PyFloat) : Nat × Nat :=
  if 0 ≤ f.e then (f.m * 2 ^ f.e.toNat, 1) else (f.m, 2 ^ (-f.e).toNat)

/-- Downward search for the largest exponent satisfying `pow10leRat`. -/
def decExpSearch (n d : Nat) : Int → Nat → Int
  | hi, 0 => hi
  | hi, fuel + 1 => if pow10leRat hi n d then hi else decExpSearch n d (hi - 1) fuel

/-- Decimal exponent `E` of a double: `10 ^ E ≤ f < 10 ^ (E + 1)`.
The integer estimate from `log10 2 ≈ 30103 / 100000` is refined by a
short exact downward search. -/
def PyFloat.decExp (f : PyFloat) : Int :=
  let p := f.rat
  let est : Int := (f.e + 52) * 30103 / 100000
  decExpSearch p.1 p.2 (est + 3) 12

/-- Nearest `n`-significant-digit decimal to the double `f`, returned as
`(digits, scale)` with value `digits * 10 ^ scale`. -/
def nDigitRound (f : PyFloat) (n : Nat) : Nat × Int :=
  let E := f.decExp
  let s := E - (n : Int) + 1
  let p := f.rat
  let q := if 0 ≤ s then (p.1, p.2 * 10 ^ s.toNat) else (p.1 * 10 ^ (-s).toNat, p.2)
  (rhe q.1 q.2, s)

/-- Remove trailing decimal zeros from a `(digits, scale)` pair. -/
def stripZeros : Nat → Nat × Int → Nat × Int
  | 0, p => p
  | fuel + 1, (ds, s) =>
    if ds % 10 = 0 ∧ ds ≠ 0 then stripZeros fuel (ds / 10, s + 1) else (ds, s)

/-- Search for the shortest decimal that parses back to the double `f`:
this is the digit-selection contract of CPython's `repr`/`str` for
floats (David Gay's shortest round-trip digits). -/
def shortestSearch (f : PyFloat) : Nat → Nat → Nat × Int
  | _, 0 => stripZeros 40 (nDigitRound f 17)
  | n, fuel + 1 =>
    let c := stripZeros 40 (nDigitRound f n)
    if doubleOfDec c.1 c.2 = f then c else shortestSearch f (n + 1) fuel

/-- Shortest round-trip decimal `(digits, scale)` for the double `f`. -/
def PyFloat.shortest (f : PyFloat) : Nat × Int := shortestSearch f 1 17

/-- A string of `n` copies of the character `c`. -/
def repChar (n : Nat) (c : Char) : String := String.mk (List.replicate n c)

/-- CPython's float formatting of shortest digits (`format_float_short`):
fixed notation when the decimal exponent of the leading digit is in
`[-4, 16)`, otherwise scientific notation with a signed two-digit
exponent.  `ds` carries the digits (no trailing zeros), the value is
`ds * 10 ^ s`. -/
def pyFormatShort (ds : Nat) (s : Int) : String :=
  let dstr := toString ds
  let k : Int := (dstr.length : Int)
  let ed := k - 1 + s
  if -4 ≤ ed ∧ ed < 16 then
    if 0 ≤ s then dstr ++ repChar s.toNat '0' ++ ".0"
    else if 0 ≤ ed then
      String.mk (dstr.data.take (ed + 1).toNat) ++ "." ++
        String.mk (dstr.data.drop (ed + 1).toNat)
    else "0." ++ repChar (-(ed + 1)).toNat '0' ++ dstr
  else
    let mant :=
      if dstr.length = 1 then dstr
      else String.mk (dstr.data.take 1) ++ "." ++ String.mk (dstr.data.drop 1)
    let ea := (if ed < 0 then -ed else ed).toNat
    let estr := if ea < 10 then "0" ++ toString ea else toString ea
    mant ++ "e" ++ (if ed < 0 then "-" else "+") ++ estr

/-- Python `str`/`repr` of a positive double: shortest round-trip digits,
then CPython's fixed/scientific formatting rule. -/
def pyStrFloat (f : PyFloat) : String :=
  let c := f.shortest
  pyFormatShort c.1 c.2

/-- The Python float literal `0.000001` (the nearest double to `10 ^ -6`). -/
def pyLit1em6 : PyFloat := doubleOfDec 1 (-6)

example : pyLit1em6 = ⟨4722366482869645, -72⟩ := by decide
example : pyStrFloat pyLit1em6 = "1e-06" := by decide

/-! ### Python values and dictionaries -/

/-- Python values flowing through the client: arguments, JSON payloads and
dictionary entries.  Dictionaries are association lists in insertion
order, mirroring Python dict semantics for the duplicate-free
dictionaries the code builds. -/
inductive JVal where
  | jNull
  | jBool (b : Bool)
  | jInt (n : Int)
  | jFloat (f : PyFloat)
  | jStr (s : String)
  | jList (xs : List JVal)
  | jObj (fields : List (String × JVal))

/-- Python exceptions raised by the embedded code. -/
inductive PyErr where
  | ripple (arg : JVal)
  | jsonDecodeError
  | keyError (k : String)
  | typeError (msg : String)
  | nameError (n : String)
  | valueError (msg : String)

/-- Dictionary read, `d[k]` as an option (first binding wins). -/
def dget {α : Type} (d : List (String × α)) (k : String) : Option α :=
  match d with
  | [] => none
  | (k2, v) :: rest => if k2 = k then some v else dget rest k

/-- Dictionary write, `d[k] = v`: replace the existing binding in place,
else append (Python dict insertion order). -/
def dset {α : Type} (d : List (String × α)) (k : String) (v : α) : List (String × α) :=
  match d with
  | [] => [(k, v)]
  | (k2, v2) :: rest => if k2 = k then (k, v) :: rest else (k2, v2) :: dset rest k v

/-- Dictionary delete, `del d[k]` (removes the binding for `k`). -/
def ddel {α : Type} (d : List (String × α)) (k : String) : List (String × α) :=
  d.filter (fun kv => !(kv.1 == k))

/-- Remove and return the binding for `k`, used for keyword binding. -/
def dpop {α : Type} (d : List (String × α)) (k : String) :
    Option (α × List (String × α)) :=
  match d with
  | [] => none
  | (k2, v) :: rest =>
    if k2 = k then some (v, rest)
    else
      match dpop rest k with
      | none => none
      | some (v2, rest2) => some (v2, (k2, v) :: rest2)

/-- Bind an optional keyword parameter with a default value. -/
def popOpt (d : List (String × JVal)) (k : String) (dflt : JVal) :
    JVal × List (String × JVal) :=
  match dpop d k with
  | some (v, rest) => (v, rest)
  | none => (dflt, d)

/-- Python truthiness of a value (`if v:`). -/
def pyTruthy : JVal → Bool
  | .jNull => false
  | .jBool b => b
  | .jInt n => if n = 0 then false else true
  | .jFloat _ => true
  | .jStr s => if s = "" then false else true
  | .jList xs => match xs with | [] => false | _ => true
  | .jObj d => match d with | [] => false | _ => true

/-- A single-quote character, used by Python container `repr`. -/
def sqch : String := String.mk [Char.ofNat 39]

/-- Python `repr` with a recursion-depth budget (CPython aborts past its
recursion limit; no value in this development is anywhere near it).
Strings are single-quoted; escaping inside them is not modelled since no
verified claim inspects the repr of a container. -/
def pyReprFuel : Nat → JVal → String
  | _, .jNull => "None"
  | _, .jBool b => if b then "True" else "False"
  | _, .jInt n => toString n
  | _, .jFloat f => pyStrFloat f
  | _, .jStr s => sqch ++ s ++ sqch
  | 0, _ => ""
  | fuel + 1, .jList xs =>
    "[" ++ String.intercalate ", " (xs.map (pyReprFuel fuel)) ++ "]"
  | fuel + 1, .jObj d =>
    "\x7b" ++
      String.intercalate ", "
        (d.map (fun kv => sqch ++ kv.1 ++ sqch ++ ": " ++ pyReprFuel fuel kv.2)) ++
      "\x7d"

/-- Python `str()` of a value: identity on strings, `repr` otherwise. -/
def pyStr : JVal → String
  | .jStr s => s
  | v => pyReprFuel 1000 v

/-- Construction of a `RippleAddress` (a bare `str` subclass): the
resulting object carries `str(x)`. -/
def toRippleAddress (v : JVal) : JVal := .jStr (pyStr v)

/-- Construction of a `Currency` (a bare `str` subclass). -/
def toCurrency (v : JVal) : JVal := .jStr (pyStr v)

example : pyStr (.jFloat pyLit1em6) = "1e-06" := by decide
example : pyStr (.jInt 17) = "17" := by decide
example : pyTruthy (.jStr "") = false := by decide

/-! ### Query-string encoding (client.py lines 116-123) -/

/-- Characters never quoted by `urllib.parse.quote_plus` with the default
empty `safe` set: ASCII letters, digits, and `_.-~`. -/
def urlSafeChar (c : Char) : Bool :=
  let n := c.toNat
  if (97 ≤ n ∧ n ≤ 122) ∨ (65 ≤ n ∧ n ≤ 90) ∨ (48 ≤ n ∧ n ≤ 57) ∨
      n = 95 ∨ n = 46 ∨ n = 45 ∨ n = 126 then true else false

/-- UTF-8 encoding of one code point, as byte values. -/
def utf8Bytes (c : Char) : List Nat :=
  let n := c.toNat
  if n < 128 then [n]
  else if n < 2048 then [192 + n / 64, 128 + n % 64]
  else if n < 65536 then [224 + n / 4096, 128 + (n / 64) % 64, 128 + n % 64]
  else [240 + n / 262144, 128 + (n / 4096) % 64, 128 + (n / 64) % 64, 128 + n % 64]

/-- Upper-case hexadecimal digit for `n < 16`. -/
def hexUpper (n : Nat) : Char :=
  if n < 10 then Char.ofNat (48 + n) else Char.ofNat (55 + n)

/-- Percent-encoding of one byte. -/
def pctByte (b : Nat) : List Char := ['%', hexUpper (b / 16), hexUpper (b % 16)]

/-- `quote_plus` on a single character: space becomes `+`, safe
characters pass through, everything else is percent-encoded per UTF-8
byte. -/
def quoteChar (c : Char) : List Char :=
  if c = ' ' then ['+']
  else if urlSafeChar c then [c]
  else (utf8Bytes c).flatMap pctByte

/-- `urllib.parse.quote_plus` with the default arguments, as used by
`urlencode` for both keys and values. -/
def quotePlus (s : String) : String := String.mk (s.data.flatMap quoteChar)

/-- Join strings with a separator (the equivalent of `sep.join(l)`). -/
def joinSep (sep : String) : List String → String
  | [] => ""
  | [x] => x
  | x :: y :: rest => x ++ sep ++ joinSep sep (y :: rest)

/-- The boolean rewrite of client.py lines 118-120: a value of exact type
`bool` is replaced by the string `true` or `false`. -/
def boolFix : JVal → JVal
  | .jBool b => .jStr (if b then "true" else "false")
  | v => v

/-- The `None` filter of client.py line 117. -/
def notNull (kv : String × JVal) : Bool :=
  match kv.2 with
  | .jNull => false
  | _ => true

/-- The `key=value` pieces of the encoded query: parameters with value
`None` are dropped, booleans are rewritten to `true`/`false`, then
`urlencode` applies `str` and `quote_plus` to every key and value. -/
def queryPieces (ps : List (String × JVal)) : List String :=
  ((ps.filter notNull).map (fun kv => (kv.1, boolFix kv.2))).map
    (fun kv => quotePlus kv.1 ++ "=" ++ quotePlus (pyStr kv.2))

/-- The encoded query string produced by client.py lines 116-121. -/
def encodeQuery (ps : List (String × JVal)) : String :=
  joinSep "&" (queryPieces ps)

example : encodeQuery [("a", .jBool true), ("b", .jNull), ("c", .jStr "x y")] =
    "a=true&c=x+y" := by decide

/-! ### The Client and its request plumbing (client.py lines 74-140) -/

/-- The version prefix for non-absolute paths. -/
def VERSION : String := "v1"

/-- Client state: server authority, scheme, and the idempotency token
stored in `self.uuid`. -/
structure Client where
  netloc : String
  scheme : String
  uuid : String
deriving DecidableEq

/-- Python `x or y` on an optional string: the right operand is used when
the left is absent (`None`) or falsy (the empty string). -/
def pyOrStr : Option String → String → String
  | none, fresh => fresh
  | some s, fresh => if s = "" then fresh else s

/-- `Client.set_resource_id`: `self.uuid = resource_id or str(uuid.uuid4())`.
The randomly generated `str(uuid.uuid4())` is passed in as `fresh`. -/
def Client.set_resource_id (c : Client) (resource_id : Option String)
    (fresh : String) : Client :=
  { c with uuid := pyOrStr resource_id fresh }

/-- `Client.__init__`. -/
def Client.init (netloc : String) (secure : Bool) (resource_id : Option String)
    (fresh : String) : Client :=
  Client.set_resource_id
    { netloc := netloc, scheme := if secure then "https" else "http", uuid := "" }
    resource_id fresh

/-- The HTTP request assembled by `Client._request` before the call:
the URL and, for write operations, the JSON body (the dictionary passed
to `json.dumps`) plus its content type header. -/
structure BuiltRequest where
  url : String
  contentType : Option String
  body : Option (List (String × JVal))

/-- The body dictionary `secret` entry: `data['secret'] = secret` stores
`None` when no secret was supplied. -/
def secretVal : Option String → JVal
  | some s => .jStr s
  | none => .jNull

/-- `Client._request`, request-building half (client.py lines 114-129):
version-prefix the path, drop unset parameters and encode the rest,
splice the URL, and for write operations extend the body with
`client_resource_id` and `secret` before serialization. -/
def buildRequest (c : Client) (path : String)
    (parameters : Option (List (String × JVal)))
    (data : Option (List (String × JVal))) (secret : Option String)
    (complete_path : Bool) : BuiltRequest :=
  let fullPath := if complete_path then path else "/" ++ VERSION ++ "/" ++ path
  let query : Option String :=
    match parameters with
    | none => none
    | some ps => if ps.isEmpty then none else some (encodeQuery ps)
  let url := c.scheme ++ "://" ++ c.netloc ++ fullPath ++
    (match query with | some q => "?" ++ q | none => "")
  match data with
  | none => { url := url, contentType := none, body := none }
  | some d =>
    let d := dset d "client_resource_id" (.jStr c.uuid)
    let d := dset d "secret" (secretVal secret)
    { url := url, contentType := some "application/json;charset=utf-8",
      body := some d }

/-- Outcome of the HTTP exchange, with JSON parsing of the involved body
already applied (`none` marks a body `json.loads` rejects). -/
inductive HttpOutcome where
  | success (body : Option JVal)
  | httpError (body : Option JVal)

/-- `Client._request`, response half (client.py lines 130-140): unwrap the
success envelope, raise `RippleRESTException` on a reported failure, and
on a transport error re-raise the parsed `message`; a body that fails to
parse propagates the `json.loads` error itself. -/
def handleResponse : HttpOutcome → Except PyErr (List (String × JVal))
  | .success none => .error .jsonDecodeError
  | .success (some j) =>
    match j with
    | .jObj d =>
      match dget d "success" with
      | none => .error (.keyError "success")
      | some v =>
        if pyTruthy v then .ok (ddel d "success")
        else
          match dget d "message" with
          | some msg => .error (.ripple msg)
          | none => .error (.keyError "message")
    | _ => .error (.typeError "response is not a dict")
  | .httpError none => .error .jsonDecodeError
  | .httpError (some j) =>
    match j with
    | .jObj d =>
      match dget d "message" with
      | some msg => .error (.ripple msg)
      | none => .error (.keyError "message")
    | _ => .error (.typeError "error body is not a dict")

/-- Recognizer for `RippleRESTException` among raised errors. -/
def isRemoteError {α : Type} : Except PyErr α → Bool
  | .error (.ripple _) => true
  | _ => false

/-! ### Entity constructors (entities.py) -/

/-- Failed binding of a required constructor parameter: Python raises
`TypeError` (the specification's ConstructionError). -/
def missingArg (name : String) : PyErr :=
  .typeError ("missing required argument: " ++ name)

/-- Keyword merging for a call `f(k=v, **d)`: Python raises `TypeError`
when `d` also binds one of the explicit keywords. -/
def kwMerge (explicit star : List (String × JVal)) :
    Except PyErr (List (String × JVal)) :=
  if star.any (fun kv => explicit.any (fun kv2 => kv2.1 == kv.1)) then
    .error (.typeError "got multiple values for keyword argument")
  else .ok (explicit ++ star)

/-- `Amount.__init__` called with the keyword map `kw`:
`self.update(kwargs)`, then `value` is stringified, `currency` wrapped,
and `issuer`/`counterparty` stored only when truthy. -/
def callAmount (kw : List (String × JVal)) :
    Except PyErr (List (String × JVal)) :=
  match dpop kw "value" with
  | none => .error (missingArg "value")
  | some (value, kw1) =>
    match dpop kw1 "currency" with
    | none => .error (missingArg "currency")
    | some (currency, kw2) =>
      let p3 := popOpt kw2 "issuer" .jNull
      let p4 := popOpt p3.2 "counterparty" .jNull
      let d := p4.2
      let d := dset d "value" (.jStr (pyStr value))
      let d := dset d "currency" (toCurrency currency)
      let d := if pyTruthy p3.1 then dset d "issuer" (toRippleAddress p3.1) else d
      let d := if pyTruthy p4.1 then dset d "counterparty" (toRippleAddress p4.1) else d
      .ok d

/-- `Balance.__init__` called with the keyword map `kw`: unlike `Amount`,
`value` is stored raw and the `issuer`/`counterparty` keys are always
present, `None` when the argument is falsy. -/
def callBalance (kw : List (String × JVal)) :
    Except PyErr (List (String × JVal)) :=
  match dpop kw "value" with
  | none => .error (missingArg "value")
  | some (value, kw1) =>
    match dpop kw1 "currency" with
    | none => .error (missingArg "currency")
    | some (currency, kw2) =>
      let p3 := popOpt kw2 "issuer" .jNull
      let p4 := popOpt p3.2 "counterparty" .jNull
      let d := p4.2
      let d := dset d "value" value
      let d := dset d "currency" (toCurrency currency)
      let d := dset d "issuer"
        (if pyTruthy p3.1 then toRippleAddress p3.1 else .jNull)
      let d := dset d "counterparty"
        (if pyTruthy p4.1 then toRippleAddress p4.1 else .jNull)
      .ok d

/-- `AccountSettings.__init__` called with the keyword map `kw`. -/
def callAccountSettings (kw : List (String × JVal)) :
    Except PyErr (List (String × JVal)) :=
  match dpop kw "account" with
  | none => .error (missingArg "account")
  | some (account, kwargs) =>
    .ok (dset kwargs "account" (toRippleAddress account))

/-- `Payment.__init__` called with the keyword map `kw`: the three
required fields are bound, the rest pass through unchanged, and
`destination_amount` is rebuilt as `Amount(**destination_amount)`. -/
def callPayment (kw : List (String × JVal)) :
    Except PyErr (List (String × JVal)) :=
  match dpop kw "source_account" with
  | none => .error (missingArg "source_account")
  | some (sa, kw1) =>
    match dpop kw1 "destination_account" with
    | none => .error (missingArg "destination_account")
    | some (da, kw2) =>
      match dpop kw2 "destination_amount" with
      | none => .error (missingArg "destination_amount")
      | some (dam, kwargs) =>
        match dam with
        | .jObj amtKw =>
          match callAmount amtKw with
          | .error e => .error e
          | .ok amt =>
            .ok (dset (dset (dset kwargs
              "source_account" (toRippleAddress sa))
              "destination_account" (toRippleAddress da))
              "destination_amount" (.jObj amt))
        | _ => .error (.typeError "argument after asterisks must be a mapping")

/-- `Trustline.__init__` called with the keyword map `kw`. -/
def callTrustline (kw : List (String × JVal)) :
    Except PyErr (List (String × JVal)) :=
  match dpop kw "account" with
  | none => .error (missingArg "account")
  | some (account, kw1) =>
    match dpop kw1 "counterparty" with
    | none => .error (missingArg "counterparty")
    | some (cp, kw2) =>
      match dpop kw2 "limit" with
      | none => .error (missingArg "limit")
      | some (limit, kw3) =>
        match dpop kw3 "currency" with
        | none => .error (missingArg "currency")
        | some (currency, kwargs) =>
          .ok (dset (dset (dset (dset kwargs
            "account" (toRippleAddress account))
            "counterparty" (toRippleAddress cp))
            "limit" (.jStr (pyStr limit)))
            "currency" (toCurrency currency))

/-! ### Public operations (client.py lines 142-387) -/

/-- Subscript `d[k]` on a response dictionary (`KeyError` when absent). -/
def rget (d : List (String × JVal)) (k : String) : Except PyErr JVal :=
  match dget d k with
  | some v => .ok v
  | none => .error (.keyError k)

/-- Require a value to be a mapping (for `**` unpacking and subscripts). -/
def asObj : JVal → Except PyErr (List (String × JVal))
  | .jObj d => .ok d
  | _ => .error (.typeError "a mapping is required")

/-- Python iteration over a value: lists yield elements, strings yield
one-character strings, dicts yield their keys, the rest raise. -/
def pyIter : JVal → Except PyErr (List JVal)
  | .jList xs => .ok xs
  | .jStr s => .ok (s.data.map (fun ch => .jStr (String.mk [ch])))
  | .jObj d => .ok (d.map (fun kv => .jStr kv.1))
  | _ => .error (.typeError "object is not iterable")

/-- Python `int(x)` as used by `post_trustline` on the `ledger` field. -/
def pyInt : JVal → Except PyErr Int
  | .jInt n => .ok n
  | .jBool b => .ok (if b then 1 else 0)
  | .jStr s =>
    match s.toInt? with
    | some n => .ok n
    | none => .error (.valueError "invalid literal for int with base 10")
  | .jFloat f => .ok (if 0 ≤ f.e then (f.m * 2 ^ f.e.toNat : Nat) else (f.m / 2 ^ (-f.e).toNat : Nat))
  | _ => .error (.typeError "int argument must be a number or a string")

/-- One iteration of the `get_balances` loop (client.py lines 154-155):
`Balance(issuer=address, **balance)`. -/
def balanceItem (address : String) (item : JVal) : Except PyErr JVal :=
  match item with
  | .jObj bd =>
    match kwMerge [("issuer", .jStr address)] bd with
    | .error e => .error e
    | .ok kw =>
      match callBalance kw with
      | .error e => .error e
      | .ok d => .ok (.jObj d)
  | _ => .error (.typeError "argument after asterisks must be a mapping")

/-- The destination-amount path segment of `get_paths` (client.py lines
231-232): `'+'.join(map(str, filter(bool, (value, currency, issuer))))`. -/
def pathsAmountSegment (value currency issuer : JVal) : String :=
  joinSep "+" (([value, currency, issuer].filter pyTruthy).map pyStr)

/-- Results produced by the public operations: plain values, tuples, and
materialized generators. -/
inductive ResVal where
  | j (v : JVal)
  | tup (xs : List ResVal)
  | gen (xs : List ResVal)

/-- One invocation of a public Client operation, carrying the call
arguments together with the transport outcome of the one HTTP exchange
the operation performs. -/
inductive Operation where
  | get_balances (address : String) (kwargs : List (String × JVal)) (outcome : HttpOutcome)
  | get_account_settings (address : String) (outcome : HttpOutcome)
  | post_account_settings (address : String) (secret : Option String)
      (kwargs : List (String × JVal)) (outcome : HttpOutcome)
  | post_payment (secret : Option String) (payment : List (String × JVal)) (outcome : HttpOutcome)
  | get_paths (address destination_account : String)
      (value currency issuer source_currencies : JVal) (outcome : HttpOutcome)
  | get_payment (address hash_or_uuid : String) (outcome : HttpOutcome)
  | get_payments (address : String) (kwargs : List (String × JVal)) (outcome : HttpOutcome)
  | get_trustlines (address : String) (kwargs : List (String × JVal)) (outcome : HttpOutcome)
  | post_trustline (address : String) (secret : Option String)
      (trustline : List (String × JVal)) (kwargs : List (String × JVal)) (outcome : HttpOutcome)
  | get_notification (address tx_hash : String) (kwargs : List (String × JVal)) (outcome : HttpOutcome)
  | get_connection_status (outcome : HttpOutcome)
  | get_server_info (outcome : HttpOutcome)
  | get_uuid (outcome : HttpOutcome)
  | get_transaction (tx_hash : String) (outcome : HttpOutcome)

/-- Execute one public operation: unwrap the response envelope through
`Client._request` and post-process exactly as the Python method body
does.  The client state is returned alongside; no method body ever
assigns to `self`, so it is passed through unchanged. -/
def runOperation (c : Client) (op : Operation) : Except PyErr ResVal × Client :=
  match op with
  | .get_balances address _kwargs outcome =>
    (do
      let resp ← handleResponse outcome
      let bs ← rget resp "balances"
      let items ← pyIter bs
      let out ← items.mapM (balanceItem address)
      return .gen (out.map .j), c)
  | .get_account_settings _address outcome =>
    (do
      let resp ← handleResponse outcome
      let s ← rget resp "settings"
      let kw ← asObj s
      let d ← callAccountSettings kw
      return .j (.jObj d), c)
  | .post_account_settings _address _secret _kwargs outcome =>
    (do
      let resp ← handleResponse outcome
      let l ← rget resp "ledger"
      let h ← rget resp "hash"
      let s ← rget resp "settings"
      return .tup [.j l, .j h, .j s], c)
  | .post_payment _secret _payment outcome =>
    (do
      let resp ← handleResponse outcome
      let rid ← rget resp "client_resource_id"
      let u ← rget resp "status_url"
      return .tup [.j rid, .j u], c)
  | .get_paths _address _destination value currency issuer source_currencies outcome =>
    (do
      let _amt := pathsAmountSegment value currency issuer
      if pyTruthy source_currencies then
        throw (.nameError "join")
      else
        let resp ← handleResponse outcome
        let ps ← rget resp "payments"
        let items ← pyIter ps
        let out ← items.mapM (fun it => do
          let kw ← asObj it
          let d ← callPayment kw
          return ResVal.j (.jObj d))
        return .gen out, c)
  | .get_payment _address _hash_or_uuid outcome =>
    (do
      let resp ← handleResponse outcome
      let p ← rget resp "payment"
      let kw ← asObj p
      let d ← callPayment kw
      return .j (.jObj d), c)
  | .get_payments _address _kwargs outcome =>
    (do
      let resp ← handleResponse outcome
      let ps ← rget resp "payments"
      let items ← pyIter ps
      let out ← items.mapM (fun it => do
        let entry ← asObj it
        let p ← rget entry "payment"
        let kw ← asObj p
        let d ← callPayment kw
        let rid ← rget entry "client_resource_id"
        return ResVal.tup [.j (.jObj d), .j rid])
      return .gen out, c)
  | .get_trustlines _address _kwargs outcome =>
    (do
      let resp ← handleResponse outcome
      let ts ← rget resp "trustlines"
      let items ← pyIter ts
      let out ← items.mapM (fun it => do
        let kw ← asObj it
        let d ← callTrustline kw
        return ResVal.j (.jObj d))
      return .gen out, c)
  | .post_trustline _address _secret _trustline _kwargs outcome =>
    (do
      let resp ← handleResponse outcome
      let t ← rget resp "trustline"
      let kw ← asObj t
      let d ← callTrustline kw
      let h ← rget resp "hash"
      let l ← rget resp "ledger"
      let n ← pyInt l
      return .tup [.j (.jObj d), .j h, .j (.jInt n)], c)
  | .get_notification _address _tx_hash _kwargs outcome =>
    (do
      let resp ← handleResponse outcome
      let n ← rget resp "notification"
      return .j n, c)
  | .get_connection_status outcome =>
    (do
      let resp ← handleResponse outcome
      let b ← rget resp "connected"
      return .j b, c)
  | .get_server_info outcome =>
    (do
      let resp ← handleResponse outcome
      return .j (.jObj resp), c)
  | .get_uuid outcome =>
    (do
      let resp ← handleResponse outcome
      return .j (.jObj resp), c)
  | .get_transaction _tx_hash outcome =>
    (do
      let resp ← handleResponse outcome
      let t ← rget resp "transaction"
      return .j t, c)

/-! ### Dictionary lemmas -/

theorem dget_dset_self {α : Type} (d : List (String × α)) (k : String) (v : α) :
    dget (dset d k v) k = some v := by
  induction d with
  | nil => simp [dget, dset]
  | cons kv rest ih =>
    by_cases h : kv.1 = k
    · simp [dset, dget, h]
    · simp [dset, dget, h, ih]

theorem dget_dset_ne {α : Type} (d : List (String × α)) (k k2 : String) (v : α)
    (h : k2 ≠ k) : dget (dset d k v) k2 = dget d k2 := by
  induction d with
  | nil => simp [dget, dset, Ne.symm h]
  | cons kv rest ih =>
    by_cases hk : kv.1 = k
    · by_cases hk2 : kv.1 = k2
      · exact absurd (hk2.symm.trans hk) h
      · simp [dset, dget, hk, hk2, Ne.symm h]
    · simp only [dset, hk, if_neg hk]
      by_cases hk2 : kv.1 = k2
      · simp [dget, hk2]
      · simp [dget, hk2, ih]

theorem dpop_eq_none {α : Type} (d : List (String × α)) (k : String)
    (h : dget d k = none) : dpop d k = none := by
  induction d with
  | nil => rfl
  | cons kv rest ih =>
    by_cases hk : kv.1 = k
    · simp [dget, hk] at h
    · simp [dget, hk] at h
      simp [dpop, hk, ih h]

theorem dpop_of_dget_some {α : Type} (d : List (String × α)) (k : String) (v : α)
    (h : dget d k = some v) : ∃ rest, dpop d k = some (v, rest) := by
  induction d with
  | nil => simp [dget] at h
  | cons kv rest ih =>
    by_cases hk : kv.1 = k
    · simp [dget, hk] at h
      exact ⟨rest, by simp [dpop, hk, h]⟩
    · simp [dget, hk] at h
      obtain ⟨r2, hr2⟩ := ih h
      exact ⟨(kv.1, kv.2) :: r2, by simp [dpop, hk, hr2]⟩

theorem dget_dpop_rest {α : Type} (d : List (String × α)) (k k2 : String)
    (v : α) (rest : List (String × α)) (hpop : dpop d k = some (v, rest))
    (hne : k2 ≠ k) : dget rest k2 = dget d k2 := by
  induction d generalizing rest with
  | nil => simp [dpop] at hpop
  | cons kv tl ih =>
    by_cases hk : kv.1 = k
    · simp [dpop, hk] at hpop
      obtain ⟨hv, hrest⟩ := hpop
      subst hrest
      by_cases hk2 : kv.1 = k2
      · exact absurd (hk2.symm.trans hk) hne
      · simp [dget, hk2]
    · simp [dpop, hk] at hpop
      match h2 : dpop tl k with
      | none => rw [h2] at hpop; simp at hpop
      | some (v2, rest2) =>
        rw [h2] at hpop
        simp at hpop
        obtain ⟨hv, hrest⟩ := hpop
        subst hrest
        by_cases hk2 : kv.1 = k2
        · simp [dget, hk2]
        · simp [dget, hk2]
          exact ih rest2 (by rw [h2, hv])

theorem dget_eq_none_iff {α : Type} (d : List (String × α)) (k : String) :
    dget d k = none ↔ ∀ kv ∈ d, kv.1 ≠ k := by
  induction d with
  | nil => simp [dget]
  | cons kv rest ih =>
    by_cases hk : kv.1 = k
    · simp [dget, hk]
    · simp [dget, hk, ih]

theorem popOpt_of_absent (d : List (String × JVal)) (k : String) (dflt : JVal)
    (h : dget d k = none) : popOpt d k dflt = (dflt, d) := by
  simp [popOpt, dpop_eq_none d k h]

theorem popOpt_of_present (d : List (String × JVal)) (k : String) (dflt v : JVal)
    (h : dget d k = some v) :
    ∃ rest, popOpt d k dflt = (v, rest) ∧ dpop d k = some (v, rest) := by
  obtain ⟨rest, hr⟩ := dpop_of_dget_some d k v h
  exact ⟨rest, by simp [popOpt, hr], hr⟩

/-! ### Encoding lemmas -/

theorem quoteChar_safe (c : Char) (h : urlSafeChar c = true) : quoteChar c = [c] := by
  have hs : ¬ c = ' ' := by
    intro he
    subst he
    exact absurd h (by decide)
  unfold quoteChar
  rw [if_neg hs, if_pos h]

theorem flatMap_quoteChar_safe (l : List Char) (h : l.all urlSafeChar = true) :
    l.flatMap quoteChar = l := by
  induction l with
  | nil => rfl
  | cons c rest ih =>
    simp only [List.all_cons, Bool.and_eq_true] at h
    simp [List.flatMap_cons, quoteChar_safe c h.1, ih h.2]

theorem quotePlus_safe (s : String) (h : s.data.all urlSafeChar = true) :
    quotePlus s = s := by
  calc quotePlus s = String.mk (s.data.flatMap quoteChar) := rfl
    _ = String.mk s.data := by rw [flatMap_quoteChar_safe s.data h]

theorem joinSep_infix (sep : String) (l : List String) (x : String) (h : x ∈ l) :
    ∃ a b, joinSep sep l = a ++ (x ++ b) := by
  induction l with
  | nil => cases h
  | cons hd tl ih =>
    rcases List.mem_cons.mp h with he | hmem
    · subst he
      match tl with
      | [] =>
        exact ⟨"", "", by
          rw [String.append_empty, String.empty_append]
          rfl⟩
      | y :: ys =>
        refine ⟨"", sep ++ joinSep sep (y :: ys), ?_⟩
        rw [String.empty_append]
        show x ++ sep ++ joinSep sep (y :: ys) = x ++ (sep ++ joinSep sep (y :: ys))
        exact String.append_assoc x sep (joinSep sep (y :: ys))
    · match tl with
      | [] => cases hmem
      | y :: ys =>
        obtain ⟨a, b, hab⟩ := ih hmem
        refine ⟨hd ++ sep ++ a, b, ?_⟩
        show hd ++ sep ++ joinSep sep (y :: ys) = hd ++ sep ++ a ++ (x ++ b)
        rw [hab, String.append_assoc (hd ++ sep) a (x ++ b)]

theorem filter_self_idem {α : Type} (p : α → Bool) (l : List α) :
    (l.filter p).filter p = l.filter p := by
  induction l with
  | nil => rfl
  | cons a t ih =>
    by_cases h : p a = true
    · simp [List.filter_cons, h, ih]
    · simp [List.filter_cons, h, ih]

/-! ### Concrete fixtures -/

/-- A concrete client used by counterexamples and witnesses. -/
def demoClient : Client :=
  { netloc := "localhost:5990", scheme := "http",
    uuid := "11111111-2222-3333-4444-555555555555" }

/-! ### Claims -/

/-- C1: for every write operation (body present), the dictionary that
`Client._request` serializes as the JSON body is the caller's data
extended with `client_resource_id` bound to the client's current
resource id and `secret` bound to the secret supplied for the call. -/
theorem c1_body_injection (c : Client) (path : String)
    (parameters : Option (List (String × JVal)))
    (d : List (String × JVal)) (secret : Option String) (complete_path : Bool) :
    (buildRequest c path parameters (some d) secret complete_path).body =
      some (dset (dset d "client_resource_id" (.jStr c.uuid)) "secret"
        (secretVal secret))
    ∧ dget (dset (dset d "client_resource_id" (.jStr c.uuid)) "secret"
        (secretVal secret)) "client_resource_id" = some (.jStr c.uuid)
    ∧ dget (dset (dset d "client_resource_id" (.jStr c.uuid)) "secret"
        (secretVal secret)) "secret" = some (secretVal secret) := by
  refine ⟨rfl, ?_, ?_⟩
  · rw [dget_dset_ne _ _ _ _ (by decide)]
    exact dget_dset_self ..
  · exact dget_dset_self ..

/-- C2: an envelope reporting `success: false` with a `message` makes
`Client._request` raise `RippleRESTException` carrying exactly that
message; an envelope reporting `success: true` is returned with only the
`success` field removed. -/
theorem c2_envelope_handling (d d2 : List (String × JVal)) (m : String)
    (hs : dget d "success" = some (.jBool false))
    (hm : dget d "message" = some (.jStr m))
    (ht : dget d2 "success" = some (.jBool true)) :
    handleResponse (.success (some (.jObj d))) = .error (.ripple (.jStr m))
    ∧ handleResponse (.success (some (.jObj d2))) = .ok (ddel d2 "success") := by
  constructor
  · simp [handleResponse, hs, hm, pyTruthy]
  · simp [handleResponse, ht, pyTruthy]

/-- Witness for C2 at a concrete failing and a concrete succeeding
envelope. -/
theorem c2_envelope_handling_witness :
    (dget [("success", JVal.jBool false), ("message", JVal.jStr "X")] "success" =
      some (JVal.jBool false))
    ∧ (dget [("success", JVal.jBool false), ("message", JVal.jStr "X")] "message" =
      some (JVal.jStr "X"))
    ∧ (dget [("success", JVal.jBool true), ("balances", JVal.jList [])] "success" =
      some (JVal.jBool true))
    ∧ (handleResponse (.success (some (.jObj
        [("success", JVal.jBool false), ("message", JVal.jStr "X")]))) =
        .error (.ripple (.jStr "X"))
      ∧ handleResponse (.success (some (.jObj
        [("success", JVal.jBool true), ("balances", JVal.jList [])]))) =
        .ok (ddel [("success", JVal.jBool true), ("balances", JVal.jList [])] "success")) :=
  ⟨rfl, rfl, rfl, c2_envelope_handling _ _ _ rfl rfl rfl⟩

/-- C3: no public operation mutates the client; in particular the
resource id survives every operation unchanged, and only
`set_resource_id` can alter it. -/
theorem c3_resource_id_frame (c : Client) (op : Operation) :
    (runOperation c op).2 = c := by
  cases op <;> rfl

/-- Counterexample to C4 as stated: for the argument `""` the stored
resource id is the freshly generated token, not the given value, because
`resource_id or str(uuid.uuid4())` discards every falsy argument. -/
theorem c4_counterexample :
    (Client.set_resource_id demoClient (some "") "fresh-token").uuid = "fresh-token"
    ∧ (Client.set_resource_id demoClient (some "") "fresh-token").uuid ≠ "" :=
  ⟨rfl, by decide⟩

/-- C4 (amended): `set_resource_id(id)` stores exactly `id` for every
truthy (non-empty) argument; when the argument is omitted (`None`), a
freshly generated random token is stored instead. -/
theorem c4_amended (c : Client) (id fresh : String) (h : id ≠ "") :
    (Client.set_resource_id c (some id) fresh).uuid = id
    ∧ (Client.set_resource_id c none fresh).uuid = fresh := by
  constructor
  · simp [Client.set_resource_id, pyOrStr, h]
  · rfl

/-- Witness for the amended C4 at a concrete non-empty id. -/
theorem c4_amended_witness :
    ("my-uuid" : String) ≠ ""
    ∧ ((Client.set_resource_id demoClient (some "my-uuid") "f").uuid = "my-uuid"
      ∧ (Client.set_resource_id demoClient none "f").uuid = "f") :=
  ⟨by decide, c4_amended demoClient "my-uuid" "f" (by decide)⟩

/-- C5: parameters bound to `None` are dropped before encoding (encoding
a mapping equals encoding its `None`-free restriction), and a
boolean-valued parameter `p` surfaces in the encoded query string as the
literal substring `p=true` or `p=false`. -/
theorem c5_query_encoding (ps : List (String × JVal)) (k : String) (b : Bool)
    (hmem : (k, JVal.jBool b) ∈ ps) (hsafe : k.data.all urlSafeChar = true) :
    encodeQuery ps = encodeQuery (ps.filter notNull)
    ∧ ∃ pre post, encodeQuery ps =
        pre ++ ((k ++ "=" ++ (if b then "true" else "false")) ++ post) := by
  constructor
  · unfold encodeQuery queryPieces
    rw [filter_self_idem]
  · have h1 : (k, JVal.jBool b) ∈ ps.filter notNull :=
      List.mem_filter.mpr ⟨hmem, rfl⟩
    have h2 : (k, JVal.jStr (if b then "true" else "false")) ∈
        (ps.filter notNull).map (fun kv => (kv.1, boolFix kv.2)) := by
      refine List.mem_map.mpr ⟨(k, JVal.jBool b), h1, ?_⟩
      cases b <;> rfl
    have h3 : quotePlus k ++ "=" ++
        quotePlus (pyStr (JVal.jStr (if b then "true" else "false"))) ∈
        queryPieces ps := by
      unfold queryPieces
      exact List.mem_map.mpr ⟨_, h2, rfl⟩
    have hq : quotePlus (pyStr (JVal.jStr (if b then "true" else "false"))) =
        (if b then "true" else "false") := by
      cases b <;> rfl
    rw [quotePlus_safe k hsafe, hq] at h3
    obtain ⟨a, b2, hab⟩ := joinSep_infix "&" (queryPieces ps) _ h3
    exact ⟨a, b2, hab⟩

/-- Witness for C5 at a concrete parameter mapping holding a boolean and
an unset (`None`) parameter. -/
theorem c5_query_encoding_witness :
    (("verbose", JVal.jBool true) ∈
      [("verbose", JVal.jBool true), ("skip", JVal.jNull)])
    ∧ ("verbose".data.all urlSafeChar = true)
    ∧ (encodeQuery [("verbose", JVal.jBool true), ("skip", JVal.jNull)] =
        encodeQuery ([("verbose", JVal.jBool true), ("skip", JVal.jNull)].filter notNull)
      ∧ ∃ pre post, encodeQuery [("verbose", JVal.jBool true), ("skip", JVal.jNull)] =
          pre ++ (("verbose" ++ "=" ++ (if true then "true" else "false")) ++ post)) :=
  ⟨List.mem_cons_self _ _, by decide,
    c5_query_encoding _ "verbose" true (List.mem_cons_self _ _) (by decide)⟩

/-- Counterexample to C6 as stated: when the transport error body does
not parse as JSON, `Client._request` does not raise a generic
`RippleRESTException`; the `json.loads` failure propagates instead. -/
theorem c6_counterexample :
    handleResponse (HttpOutcome.httpError none) = Except.error PyErr.jsonDecodeError
    ∧ isRemoteError (handleResponse (HttpOutcome.httpError none)) = false :=
  ⟨rfl, rfl⟩

/-- C6 (amended): a transport-level error body that parses as JSON with a
`message` field raises `RippleRESTException` carrying that message; a
body that cannot be parsed makes the JSON decoding error itself
propagate (an error of a different type). -/
theorem c6_amended (d : List (String × JVal)) (msg : JVal)
    (h : dget d "message" = some msg) :
    handleResponse (.httpError (some (.jObj d))) = .error (.ripple msg)
    ∧ handleResponse (.httpError none) = .error .jsonDecodeError := by
  constructor
  · simp [handleResponse, h]
  · rfl

/-- Witness for the amended C6 at a concrete parseable error body. -/
theorem c6_amended_witness :
    (dget [("message", JVal.jStr "boom")] "message" = some (JVal.jStr "boom"))
    ∧ (handleResponse (.httpError (some (.jObj [("message", JVal.jStr "boom")]))) =
        .error (.ripple (JVal.jStr "boom"))
      ∧ handleResponse (.httpError none) = .error .jsonDecodeError) :=
  ⟨rfl, c6_amended _ _ rfl⟩

/-- Counterexample to C7 as stated: `Amount(0.000001, 'XRP')` stores
`str(1e-06) = "1e-06"`, not `"0.000001"`, because CPython formats the
double nearest to `10 ^ -6` in scientific notation. -/
theorem c7_counterexample :
    callAmount [("value", JVal.jFloat pyLit1em6), ("currency", JVal.jStr "XRP")] =
      Except.ok [("value", JVal.jStr "1e-06"), ("currency", JVal.jStr "XRP")]
    ∧ callAmount [("value", JVal.jFloat pyLit1em6), ("currency", JVal.jStr "XRP")] ≠
      Except.ok [("value", JVal.jStr "0.000001"), ("currency", JVal.jStr "XRP")] := by
  have h : callAmount [("value", JVal.jFloat pyLit1em6), ("currency", JVal.jStr "XRP")] =
      Except.ok [("value", JVal.jStr "1e-06"), ("currency", JVal.jStr "XRP")] := by
    rfl
  refine ⟨h, ?_⟩
  rw [h]
  intro he
  injection he with h1
  injection h1 with h2 h3
  injection h2 with h4 h5
  injection h5 with h6
  exact absurd h6 (by decide)

theorem dget_some_mem {α : Type} (d : List (String × α)) (k : String) (v : α)
    (h : dget d k = some v) : ∃ kv ∈ d, kv.1 = k := by
  induction d with
  | nil => simp [dget] at h
  | cons kv rest ih =>
    by_cases hk : kv.1 = k
    · exact ⟨kv, List.mem_cons_self .., hk⟩
    · simp [dget, hk] at h
      obtain ⟨kv2, hmem, hkv2⟩ := ih h
      exact ⟨kv2, List.mem_cons_of_mem _ hmem, hkv2⟩

theorem callBalance_ok_issuer (bd D : List (String × JVal)) (address : String)
    (haddr : address ≠ "")
    (h : callBalance (("issuer", JVal.jStr address) :: bd) = Except.ok D) :
    dget D "issuer" = some (JVal.jStr address) := by
  have htr : pyTruthy (JVal.jStr address) = true := by
    simp [pyTruthy, haddr]
  cases hbv : dpop bd "value" with
  | none =>
    have h0 : dpop (("issuer", JVal.jStr address) :: bd) "value" = none := by
      simp [dpop, hbv]
    simp [callBalance, h0] at h
  | some pv =>
    obtain ⟨value, bd1⟩ := pv
    have hv : dpop (("issuer", JVal.jStr address) :: bd) "value" =
        some (value, ("issuer", JVal.jStr address) :: bd1) := by
      simp [dpop, hbv]
    cases hbc : dpop bd1 "currency" with
    | none =>
      have h0 : dpop (("issuer", JVal.jStr address) :: bd1) "currency" = none := by
        simp [dpop, hbc]
      simp [callBalance, hv, h0] at h
    | some pc =>
      obtain ⟨currency, bd2⟩ := pc
      have hcr : dpop (("issuer", JVal.jStr address) :: bd1) "currency" =
          some (currency, ("issuer", JVal.jStr address) :: bd2) := by
        simp [dpop, hbc]
      have hpi : popOpt (("issuer", JVal.jStr address) :: bd2) "issuer" JVal.jNull =
          (JVal.jStr address, bd2) := by
        simp [popOpt, dpop]
      simp only [callBalance, hv, hcr, hpi, htr, if_true, Except.ok.injEq] at h
      rw [← h]
      rw [dget_dset_ne _ _ _ _ (by decide)]
      rw [dget_dset_self]
      rfl

/-- Counterexample to C8 as stated: a response record that itself carries
an `issuer` value does not override the query address; the call
`Balance(issuer=address, **balance)` raises `TypeError` for a duplicate
keyword argument instead. -/
theorem c8_counterexample :
    balanceItem "rQueryAddress" (JVal.jObj
      [("value", JVal.jStr "10"), ("currency", JVal.jStr "USD"),
       ("issuer", JVal.jStr "rRecordIssuer")]) =
      Except.error (PyErr.typeError "got multiple values for keyword argument") := by
  rfl

/-- C8 (amended): every balance yielded by `get_balances(address)`
carries the query address as its `issuer` field; a record supplying its
own `issuer` value makes the iteration raise `TypeError` (duplicate
keyword argument) rather than overriding anything. -/
theorem c8_amended (address : String) (bd : List (String × JVal)) (d : JVal)
    (haddr : address ≠ "")
    (hok : balanceItem address (JVal.jObj bd) = Except.ok d) :
    (∃ D, d = JVal.jObj D ∧ dget D "issuer" = some (JVal.jStr address))
    ∧ (∀ bd2 x, dget bd2 "issuer" = some x →
        balanceItem address (JVal.jObj bd2) =
          Except.error (PyErr.typeError "got multiple values for keyword argument")) := by
  constructor
  · cases hcond : (bd.any (fun kv =>
        [("issuer", JVal.jStr address)].any (fun kv2 => kv2.1 == kv.1))) with
    | true =>
      have hkm : kwMerge [("issuer", JVal.jStr address)] bd =
          .error (.typeError "got multiple values for keyword argument") := by
        unfold kwMerge
        rw [if_pos hcond]
      simp [balanceItem, hkm] at hok
    | false =>
      have hkm : kwMerge [("issuer", JVal.jStr address)] bd =
          .ok (("issuer", JVal.jStr address) :: bd) := by
        unfold kwMerge
        rw [if_neg (by rw [hcond]; exact Bool.false_ne_true)]
        rfl
      simp only [balanceItem, hkm] at hok
      cases hcb : callBalance (("issuer", JVal.jStr address) :: bd) with
      | error e => rw [hcb] at hok; simp at hok
      | ok D =>
        rw [hcb] at hok
        simp only [Except.ok.injEq] at hok
        exact ⟨D, hok.symm, callBalance_ok_issuer bd D address haddr hcb⟩
  · intro bd2 x hx
    have hcond : (bd2.any (fun kv =>
        [("issuer", JVal.jStr address)].any (fun kv2 => kv2.1 == kv.1))) = true := by
      obtain ⟨kv, hmem, hk⟩ := dget_some_mem bd2 "issuer" x hx
      refine List.any_eq_true.mpr ⟨kv, hmem, ?_⟩
      simp [hk]
    have hkm : kwMerge [("issuer", JVal.jStr address)] bd2 =
        .error (.typeError "got multiple values for keyword argument") := by
      unfold kwMerge
      rw [if_pos hcond]
    simp [balanceItem, hkm]

/-- Witness for the amended C8 at a concrete query address and record. -/
theorem c8_amended_witness :
    ("rQueryAddress" : String) ≠ ""
    ∧ balanceItem "rQueryAddress"
        (JVal.jObj [("value", JVal.jStr "10"), ("currency", JVal.jStr "USD")]) =
        Except.ok (JVal.jObj
          [("value", JVal.jStr "10"), ("currency", JVal.jStr "USD"),
           ("issuer", JVal.jStr "rQueryAddress"), ("counterparty", JVal.jNull)])
    ∧ ((∃ D, JVal.jObj
          [("value", JVal.jStr "10"), ("currency", JVal.jStr "USD"),
           ("issuer", JVal.jStr "rQueryAddress"), ("counterparty", JVal.jNull)] =
            JVal.jObj D ∧ dget D "issuer" = some (JVal.jStr "rQueryAddress"))
      ∧ (∀ bd2 x, dget bd2 "issuer" = some x →
          balanceItem "rQueryAddress" (JVal.jObj bd2) =
            Except.error (PyErr.typeError "got multiple values for keyword argument"))) :=
  ⟨by decide, rfl,
    c8_amended "rQueryAddress" [("value", JVal.jStr "10"), ("currency", JVal.jStr "USD")]
      (JVal.jObj
        [("value", JVal.jStr "10"), ("currency", JVal.jStr "USD"),
         ("issuer", JVal.jStr "rQueryAddress"), ("counterparty", JVal.jNull)])
      (by decide) rfl⟩

/-- C7 (amended): `Amount(0.000001, 'XRP')` yields exactly
`value = "1e-06"`, `currency = "XRP"` with no `issuer` key; in general a
successfully constructed Amount always stores its `value` as a string,
and when the call supplies no `issuer` the resulting object has no
`issuer` key at all (it is omitted, not null). -/
theorem c7_amended (kw d : List (String × JVal))
    (hok : callAmount kw = Except.ok d) (hiss : dget kw "issuer" = none) :
    callAmount [("value", JVal.jFloat pyLit1em6), ("currency", JVal.jStr "XRP")] =
      Except.ok [("value", JVal.jStr "1e-06"), ("currency", JVal.jStr "XRP")]
    ∧ (∃ s, dget d "value" = some (JVal.jStr s))
    ∧ dget d "issuer" = none := by
  refine ⟨rfl, ?_⟩
  cases hv : dpop kw "value" with
  | none => simp [callAmount, hv] at hok
  | some pv =>
    obtain ⟨value, kw1⟩ := pv
    have hiss1 : dget kw1 "issuer" = none := by
      rw [dget_dpop_rest kw "value" "issuer" value kw1 hv (by decide)]
      exact hiss
    cases hc : dpop kw1 "currency" with
    | none => simp [callAmount, hv, hc] at hok
    | some pc =>
      obtain ⟨currency, kw2⟩ := pc
      have hiss2 : dget kw2 "issuer" = none := by
        rw [dget_dpop_rest kw1 "currency" "issuer" currency kw2 hc (by decide)]
        exact hiss1
      have hp3 : popOpt kw2 "issuer" JVal.jNull = (JVal.jNull, kw2) :=
        popOpt_of_absent kw2 "issuer" JVal.jNull hiss2
      have hnull : pyTruthy JVal.jNull = false := rfl
      simp only [callAmount, hv, hc, hp3, hnull, Bool.false_eq_true, if_false,
        Except.ok.injEq] at hok
      cases hcp : dpop kw2 "counterparty" with
      | none =>
        have hp4 : popOpt kw2 "counterparty" JVal.jNull = (JVal.jNull, kw2) := by
          simp [popOpt, hcp]
        rw [hp4] at hok
        simp only [hnull, Bool.false_eq_true, if_false] at hok
        subst hok
        constructor
        · refine ⟨pyStr value, ?_⟩
          rw [dget_dset_ne _ _ _ _ (by decide)]
          exact dget_dset_self ..
        · rw [dget_dset_ne _ _ _ _ (by decide), dget_dset_ne _ _ _ _ (by decide)]
          exact hiss2
      | some pcp =>
        obtain ⟨cpv, kwr⟩ := pcp
        have hp4 : popOpt kw2 "counterparty" JVal.jNull = (cpv, kwr) := by
          simp [popOpt, hcp]
        have hissr : dget kwr "issuer" = none := by
          rw [dget_dpop_rest kw2 "counterparty" "issuer" cpv kwr hcp (by decide)]
          exact hiss2
        rw [hp4] at hok
        by_cases ht : pyTruthy cpv = true
        · rw [if_pos ht] at hok
          subst hok
          constructor
          · refine ⟨pyStr value, ?_⟩
            rw [dget_dset_ne _ _ _ _ (by decide), dget_dset_ne _ _ _ _ (by decide)]
            exact dget_dset_self ..
          · rw [dget_dset_ne _ _ _ _ (by decide), dget_dset_ne _ _ _ _ (by decide),
              dget_dset_ne _ _ _ _ (by decide)]
            exact hissr
        · rw [if_neg ht] at hok
          subst hok
          constructor
          · refine ⟨pyStr value, ?_⟩
            rw [dget_dset_ne _ _ _ _ (by decide)]
            exact dget_dset_self ..
          · rw [dget_dset_ne _ _ _ _ (by decide), dget_dset_ne _ _ _ _ (by decide)]
            exact hissr

/-- Witness for the amended C7 at a concrete keyword map without issuer. -/
theorem c7_amended_witness :
    (callAmount [("value", JVal.jStr "5"), ("currency", JVal.jStr "USD")] =
      Except.ok [("value", JVal.jStr "5"), ("currency", JVal.jStr "USD")])
    ∧ (dget [("value", JVal.jStr "5"), ("currency", JVal.jStr "USD")] "issuer" = none)
    ∧ (callAmount [("value", JVal.jFloat pyLit1em6), ("currency", JVal.jStr "XRP")] =
        Except.ok [("value", JVal.jStr "1e-06"), ("currency", JVal.jStr "XRP")]
      ∧ (∃ s, dget [("value", JVal.jStr "5"), ("currency", JVal.jStr "USD")] "value" =
          some (JVal.jStr s))
      ∧ dget [("value", JVal.jStr "5"), ("currency", JVal.jStr "USD")] "issuer" = none) :=
  ⟨rfl, rfl,
    c7_amended [("value", JVal.jStr "5"), ("currency", JVal.jStr "USD")]
      [("value", JVal.jStr "5"), ("currency", JVal.jStr "USD")] rfl rfl⟩

/-- C9: evaluation at the failing input.  The destination-amount segment
is composed correctly (`1+USD` for value 1, currency USD, no issuer),
but as soon as `source_currencies` is supplied, `get_paths` evaluates
the undefined name `join` (client.py line 234) and the call raises
`NameError` instead of building the request. -/
theorem c9_join_name_error :
    (runOperation demoClient (Operation.get_paths "rSource" "rDest"
        (JVal.jInt 1) (JVal.jStr "USD") JVal.jNull
        (JVal.jList [JVal.jList [JVal.jStr "USD", JVal.jStr "rIssuerX"]])
        (HttpOutcome.success (some (JVal.jObj
          [("success", JVal.jBool true), ("payments", JVal.jList [])]))))).1 =
      Except.error (PyErr.nameError "join")
    ∧ pathsAmountSegment (JVal.jInt 1) (JVal.jStr "USD") JVal.jNull = "1+USD" :=
  ⟨rfl, rfl⟩

/-- C10: constructing a Payment whose keyword map lacks
`destination_amount` fails with the missing-required-argument
`TypeError` (the specification's ConstructionError); constructing one
with the three required fields and extra unknown fields succeeds and
leaves every unknown field readable unchanged. -/
theorem c10_payment_construction (sa da : JVal)
    (amtKw extras ad kw2 : List (String × JVal)) (v1 v2 : JVal)
    (hamt : callAmount amtKw = Except.ok ad)
    (h1 : dget kw2 "source_account" = some v1)
    (h2 : dget kw2 "destination_account" = some v2)
    (h3 : dget kw2 "destination_amount" = none) :
    callPayment kw2 = Except.error (missingArg "destination_amount")
    ∧ ∃ d, callPayment (("source_account", sa) :: ("destination_account", da) ::
          ("destination_amount", JVal.jObj amtKw) :: extras) = Except.ok d
        ∧ ∀ k3, k3 ≠ "source_account" → k3 ≠ "destination_account" →
            k3 ≠ "destination_amount" → dget d k3 = dget extras k3 := by
  constructor
  · obtain ⟨r1, hr1⟩ := dpop_of_dget_some kw2 "source_account" v1 h1
    have h2r : dget r1 "destination_account" = some v2 := by
      rw [dget_dpop_rest kw2 "source_account" "destination_account" v1 r1 hr1 (by decide)]
      exact h2
    obtain ⟨r2, hr2⟩ := dpop_of_dget_some r1 "destination_account" v2 h2r
    have h3r : dget r2 "destination_amount" = none := by
      rw [dget_dpop_rest r1 "destination_account" "destination_amount" v2 r2 hr2 (by decide),
        dget_dpop_rest kw2 "source_account" "destination_amount" v1 r1 hr1 (by decide)]
      exact h3
    simp [callPayment, hr1, hr2, dpop_eq_none r2 "destination_amount" h3r]
  · have e1 : dpop (("source_account", sa) :: ("destination_account", da) ::
        ("destination_amount", JVal.jObj amtKw) :: extras) "source_account" =
        some (sa, ("destination_account", da) ::
          ("destination_amount", JVal.jObj amtKw) :: extras) := by
      simp [dpop]
    have e2 : dpop (("destination_account", da) ::
        ("destination_amount", JVal.jObj amtKw) :: extras) "destination_account" =
        some (da, ("destination_amount", JVal.jObj amtKw) :: extras) := by
      simp [dpop]
    have e3 : dpop (("destination_amount", JVal.jObj amtKw) :: extras)
        "destination_amount" = some (JVal.jObj amtKw, extras) := by
      simp [dpop]
    refine ⟨dset (dset (dset extras "source_account" (toRippleAddress sa))
        "destination_account" (toRippleAddress da)) "destination_amount"
        (JVal.jObj ad), ?_, ?_⟩
    · simp only [callPayment, e1, e2, e3, hamt]
    · intro k3 hk1 hk2 hk3
      rw [dget_dset_ne _ _ _ _ hk3, dget_dset_ne _ _ _ _ hk2, dget_dset_ne _ _ _ _ hk1]

/-- Witness for C10 at concrete maps: a map lacking `destination_amount`
and a full construction with an extra unknown `foo` field. -/
theorem c10_payment_construction_witness :
    (callAmount [("value", JVal.jStr "1"), ("currency", JVal.jStr "XRP")] =
      Except.ok [("value", JVal.jStr "1"), ("currency", JVal.jStr "XRP")])
    ∧ (dget [("source_account", JVal.jStr "rA"), ("destination_account", JVal.jStr "rB")]
        "source_account" = some (JVal.jStr "rA"))
    ∧ (dget [("source_account", JVal.jStr "rA"), ("destination_account", JVal.jStr "rB")]
        "destination_account" = some (JVal.jStr "rB"))
    ∧ (dget [("source_account", JVal.jStr "rA"), ("destination_account", JVal.jStr "rB")]
        "destination_amount" = none)
    ∧ (callPayment [("source_account", JVal.jStr "rA"),
          ("destination_account", JVal.jStr "rB")] =
        Except.error (missingArg "destination_amount")
      ∧ ∃ d, callPayment (("source_account", JVal.jStr "rA") ::
            ("destination_account", JVal.jStr "rB") ::
            ("destination_amount", JVal.jObj
              [("value", JVal.jStr "1"), ("currency", JVal.jStr "XRP")]) ::
            [("foo", JVal.jStr "bar")]) = Except.ok d
          ∧ ∀ k3, k3 ≠ "source_account" → k3 ≠ "destination_account" →
              k3 ≠ "destination_amount" →
              dget d k3 = dget [("foo", JVal.jStr "bar")] k3) :=
  ⟨rfl, rfl, rfl, rfl,
    c10_payment_construction (JVal.jStr "rA") (JVal.jStr "rB")
      [("value", JVal.jStr "1"), ("currency", JVal.jStr "XRP")]
      [("foo", JVal.jStr "bar")]
      [("value", JVal.jStr "1"), ("currency", JVal.jStr "XRP")]
      [("source_account", JVal.jStr "rA"), ("destination_account", JVal.jStr "rB")]
      (JVal.jStr "rA") (JVal.jStr "rB") rfl rfl rfl rfl⟩
